import Mathlib

/-!
Shallow embedding of `src/project/finance_chatbot.py` (a rule-based personal
finance chatbot) and proofs about its behaviour.

Modelling conventions:
* Python floats are modelled as rationals (`ℚ`).
* Python dicts (`Dict[str, float]`, the profile store) are association lists
  with unique keys; `.get(k, 0)` is `dictGet`, `k in d` is `dictHas`.
* Fallible Python code (division by zero, formatting `None`, indexing a dict
  with a missing key) returns `Except PyError _`; pure code returns plain
  values.  `process_query` catches every `PyError` at the router boundary,
  mirroring the `try/except Exception` block in the source.
* Python truthiness of `Optional[float]` (`not user_profile.income`) is
  `incomeFalsy`: true for `None` and for `0`.
-/

/-- Kinds of runtime errors the Python code can raise in the modelled paths. -/
inductive PyError where
  | zeroDivision
  | typeError
  | keyError
deriving DecidableEq

/-- Models `UserProfile` dataclass: demographic and financial information. -/
structure UserProfile where
  user_type : String
  age : Int
  income : Option ℚ := none
  expenses : List (String × ℚ) := []
  financial_goals : List String := []
  risk_tolerance : String := "moderate"
deriving DecidableEq

/-- Python truthiness test `not user_profile.income`:
`None` and `0` are falsy, every other float is truthy. -/
def incomeFalsy : Option ℚ → Bool
  | none => true
  | some x => x == 0

/-- Models `d.get(k, 0)` on a dict modelled as an association list (first match). -/
def dictGet : List (String × ℚ) → String → ℚ
  | [], _ => 0
  | kv :: rest, k => if kv.1 == k then kv.2 else dictGet rest k

/-- Models `k in d` membership test on the modelled dict. -/
def dictHas (m : List (String × ℚ)) (k : String) : Bool :=
  m.any (fun kv => kv.1 == k)

/-- Models `sum(d.values())`. -/
def sumValues (m : List (String × ℚ)) : ℚ :=
  (m.map (fun kv => kv.2)).sum

/-- Dict assignment `d[k] = v`: update in place if present, else append. -/
def dictPut (m : List (String × ℚ)) (k : String) (v : ℚ) : List (String × ℚ) :=
  if dictHas m k then m.map (fun kv => if kv.1 == k then (k, v) else kv)
  else m ++ [(k, v)]

/-- Models `d.update(new)`: merge `new` into `d`, overwriting matching keys. -/
def dictUpdate (m new : List (String × ℚ)) : List (String × ℚ) :=
  new.foldl (fun acc kv => dictPut acc kv.1 kv.2) m

/-! ### Number formatting helpers (display only)

The Python source renders numbers inside f-strings with `:,.2f`, `:,.0f`
and `:.1f` format specs.  These helpers produce the analogous decimal
strings for rationals; no claim depends on the exact digits. -/

/-- Insert thousands separators into a reversed digit list. -/
def commaGroupAux : List Char → List Char
  | d1 :: d2 :: d3 :: d4 :: rest => d1 :: d2 :: d3 :: ',' :: commaGroupAux (d4 :: rest)
  | l => l

/-- Comma-grouped decimal rendering of a natural number. -/
def commaGroup (n : Nat) : String :=
  String.mk ((commaGroupAux (toString n).data.reverse).reverse)

/-- Two-digit zero-padded rendering. -/
def pad2 (n : Nat) : String :=
  if n < 10 then "0" ++ toString n else toString n

/-- Format spec `:,.0f`. -/
def fmtComma0 (q : ℚ) : String :=
  let r := round q
  (if r < 0 then "-" else "") ++ commaGroup r.natAbs

/-- Format spec `:,.2f`. -/
def fmtComma2 (q : ℚ) : String :=
  let c := round (q * 100)
  (if c < 0 then "-" else "") ++ commaGroup (c.natAbs / 100) ++ "." ++ pad2 (c.natAbs % 100)

/-- Format spec `:.1f`. -/
def fmtFixed1 (q : ℚ) : String :=
  let c := round (q * 10)
  (if c < 0 then "-" else "") ++ toString (c.natAbs / 10) ++ "." ++ toString (c.natAbs % 10)

/-- Formatting `{x:,.2f}` where `x : Optional[float]`: raises `TypeError`
when `x` is `None` (`format(None, ",.2f")`), otherwise yields the string. -/
def fmtOptComma2 : Option ℚ → Except PyError String
  | none => Except.error PyError.typeError
  | some q => Except.ok (fmtComma2 q)

/-! ### FinancialAnalyzer: tax estimation -/

/-- One `(lower, upper, rate)` row of the bracket table.
`upper = none` models `float("inf")`. -/
structure TaxBracket where
  lower : ℚ
  upper : Option ℚ
  rate : ℚ
deriving DecidableEq

/-- Models `min(income, upper)` where `upper` may be infinite. -/
def minUpper (income : ℚ) : Option ℚ → ℚ
  | none => income
  | some u => min income u

/-- The 2024 single-filer bracket rows from `tax_brackets_2024["single"]`. -/
def singleBrackets : List TaxBracket :=
  [⟨0, some 11000, 1/10⟩,
   ⟨11000, some 44725, 12/100⟩,
   ⟨44725, some 95375, 22/100⟩,
   ⟨95375, some 182050, 24/100⟩,
   ⟨182050, some 231250, 32/100⟩,
   ⟨231250, some 578125, 35/100⟩,
   ⟨578125, none, 37/100⟩]

/-- Models `self.tax_brackets_2024` dict. -/
def tax_brackets_2024 : List (String × List TaxBracket) :=
  [("single", singleBrackets)]

/-- One entry of the `tax_breakdown` list. -/
structure BracketEntry where
  bracket : String
  range : String
  taxable_amount : ℚ
  tax_amount : ℚ
deriving DecidableEq

/-- The `bracket` display string `f"{rate*100}%"`. -/
def bracketLabel (b : TaxBracket) : String :=
  fmtFixed1 (b.rate * 100) ++ "%"

/-- The `range` display string of a bracket row. -/
def bracketRange (b : TaxBracket) : String :=
  match b.upper with
  | some u => "$" ++ fmtComma0 b.lower ++ " - $" ++ fmtComma0 u
  | none => "$" ++ fmtComma0 b.lower ++ "+"

/-- The breakdown dict appended for a bracket with positive taxable amount. -/
def entryOf (income : ℚ) (b : TaxBracket) : BracketEntry :=
  ⟨bracketLabel b, bracketRange b,
   minUpper income b.upper - b.lower,
   (minUpper income b.upper - b.lower) * b.rate⟩

/-- The bracket loop of `calculate_tax_estimate`: iterate rows in order,
break once `income <= lower`, accumulate `taxable * rate`, and record every
row with positive taxable amount.  Returns `(total_tax, tax_breakdown)`. -/
def taxLoop (income : ℚ) : List TaxBracket → ℚ × List BracketEntry
  | [] => (0, [])
  | b :: rest =>
    if income ≤ b.lower then (0, [])
    else
      ((minUpper income b.upper - b.lower) * b.rate + (taxLoop income rest).1,
       (if 0 < minUpper income b.upper - b.lower then [entryOf income b] else [])
         ++ (taxLoop income rest).2)

/-- Result dict of `calculate_tax_estimate`. -/
structure TaxResult where
  total_tax : ℚ
  effective_rate : ℚ
  after_tax_income : ℚ
  breakdown : List BracketEntry
deriving DecidableEq

/-- Models `FinancialAnalyzer.calculate_tax_estimate`. -/
def calculate_tax_estimate (income : ℚ) (filing_status : String) : TaxResult :=
  let brackets :=
    match tax_brackets_2024.find? (fun kv => kv.1 == filing_status) with
    | some kv => kv.2
    | none => singleBrackets
  { total_tax := (taxLoop income brackets).1
    effective_rate := if 0 < income then (taxLoop income brackets).1 / income * 100 else 0
    after_tax_income := income - (taxLoop income brackets).1
    breakdown := (taxLoop income brackets).2 }

/-! ### FinancialAnalyzer: budget analysis and investments -/

/-- The fixed needs whitelist. -/
def needs_categories : List String :=
  ["rent", "utilities", "groceries", "transportation", "insurance", "minimum_debt_payments"]

/-- The fixed wants whitelist. -/
def wants_categories : List String :=
  ["dining_out", "entertainment", "shopping", "hobbies", "subscriptions"]

/-- Models `FinancialAnalyzer._assess_budget_health`: threshold ladder on the
savings rate; `needs`, `wants` and `income` are passed but unused. -/
def assess_budget_health (savings_rate needs wants income : ℚ) : String :=
  if 20 ≤ savings_rate then "excellent"
  else if 10 ≤ savings_rate then "good"
  else if 5 ≤ savings_rate then "fair"
  else "needs_improvement"

/-- Result dict of `analyze_budget`. -/
structure BudgetAnalysis where
  total_income : ℚ
  total_expenses : ℚ
  savings : ℚ
  savings_rate : ℚ
  needs_spending : ℚ
  wants_spending : ℚ
  recommended_needs : ℚ
  recommended_wants : ℚ
  recommended_savings : ℚ
  budget_health : String
deriving DecidableEq

/-- Models `FinancialAnalyzer.analyze_budget`. -/
def analyze_budget (income : ℚ) (expenses : List (String × ℚ)) : BudgetAnalysis :=
  let total_expenses := sumValues expenses
  let savings := income - total_expenses
  let savings_rate := if 0 < income then savings / income * 100 else 0
  let needs_total := (needs_categories.map (fun cat => dictGet expenses cat)).sum
  let wants_total := (wants_categories.map (fun cat => dictGet expenses cat)).sum
  { total_income := income
    total_expenses := total_expenses
    savings := savings
    savings_rate := savings_rate
    needs_spending := needs_total
    wants_spending := wants_total
    recommended_needs := income * (50/100)
    recommended_wants := income * (30/100)
    recommended_savings := income * (20/100)
    budget_health := assess_budget_health savings_rate needs_total wants_total income }

/-- One investment suggestion dict. -/
structure Suggestion where
  type : String
  allocation : ℚ
  reason : String
  risk_level : String
  expected_return : String
deriving DecidableEq

/-- Models `FinancialAnalyzer.generate_investment_suggestions`: a deterministic
branch table on user segment and risk tolerance. -/
def generate_investment_suggestions (user_profile : UserProfile) (available_funds : ℚ) :
    List Suggestion :=
  if user_profile.user_type == "student" then
    [⟨"High-Yield Savings Account", min available_funds 5000,
      "Build emergency fund with easy access", "Very Low", "4-5% APY"⟩,
     ⟨"Index Fund (S&P 500)", available_funds * (7/10),
      "Long-term growth with diversification", "Moderate", "8-10% annually"⟩]
  else if user_profile.risk_tolerance == "low" then
    [⟨"Bond Index Fund", available_funds * (4/10),
      "Stable income with lower volatility", "Low", "3-5% annually"⟩,
     ⟨"Dividend Growth Fund", available_funds * (6/10),
      "Regular income with growth potential", "Moderate", "6-8% annually"⟩]
  else if user_profile.risk_tolerance == "high" then
    [⟨"Growth Stock Index", available_funds * (7/10),
      "Higher growth potential for long-term wealth building", "High", "10-12% annually"⟩,
     ⟨"International Fund", available_funds * (3/10),
      "Geographic diversification", "Moderate-High", "8-10% annually"⟩]
  else []

/-! ### String primitives for the keyword router and tone adapter -/

/-- Does the second list start with the first (needle-first)? -/
def leadsWith : List Char → List Char → Bool
  | [], _ => true
  | _ :: _, [] => false
  | p :: ps, c :: rest => p == c && leadsWith ps rest

/-- Python substring test `needle in hay`, on char lists. -/
def hasSubList (needle : List Char) : List Char → Bool
  | [] => needle.isEmpty
  | c :: rest => leadsWith needle (c :: rest) || hasSubList needle rest

/-- Python substring test `needle in hay` on strings. -/
def strContains (hay needle : String) : Bool :=
  hasSubList needle.data hay.data

/-- Models `any(word in query for word in words)`. -/
def kwAny (words : List String) (q : String) : Bool :=
  words.any (fun w => strContains q w)

/-- Models `query.lower()` (ASCII, as exercised by the source). -/
def pyLower (s : String) : String :=
  String.mk (s.data.map Char.toLower)

/-- Models `str.title()`: upper-case each letter that follows a non-letter,
lower-case the other letters. -/
def pyTitleAux : Bool → List Char → List Char
  | _, [] => []
  | prevAlpha, c :: rest =>
    (if c.isAlpha then (if prevAlpha then c.toLower else c.toUpper) else c)
      :: pyTitleAux c.isAlpha rest

/-- Models `str.title()`. -/
def pyTitle (s : String) : String :=
  String.mk (pyTitleAux false s.data)

/-- Models `str.replace(pat, rep)`: replace non-overlapping occurrences left to
right.  An empty pattern leaves the string unchanged (never used on one). -/
def replaceL (pat rep : List Char) : List Char → List Char
  | [] => []
  | c :: rest =>
    if hp : pat = [] then c :: rest
    else if leadsWith pat (c :: rest) then
      rep ++ replaceL pat rep ((c :: rest).drop pat.length)
    else
      c :: replaceL pat rep rest
termination_by l => l.length
decreasing_by
  · simp only [List.length_drop]
    have : 1 ≤ pat.length := List.length_pos.mpr hp
    simp [List.length_cons]
    omega
  · simp [List.length_cons]

/-- The replacement text of `re.sub(r"\$(\d+)", ...)` for a digit run. -/
def coffeeTxt (ds : List Char) : List Char :=
  ds ++ (" (that\x27s like ").data ++ ds ++ (" cups of coffee! ☕)").data

/-- The coffee-cup rewrite: every occurrence of `$<digits>` gains a
parenthetical restating the digits, scanning left to right. -/
def coffeeL : List Char → List Char
  | [] => []
  | c :: rest =>
    if c == '$' then
      let ds := rest.takeWhile Char.isDigit
      if ds.isEmpty then c :: coffeeL rest
      else c :: (coffeeTxt ds ++ coffeeL (rest.drop ds.length))
    else c :: coffeeL rest
termination_by l => l.length
decreasing_by
  · simp [List.length_cons]
  · simp only [List.length_drop]
    simp [List.length_cons]
    omega
  · simp [List.length_cons]

/-- Models `ResponseGenerator.adapt_tone`: for students, two literal phrase
substitutions followed by the coffee-cup dollar rewrite; identity for
every other segment. -/
def adapt_tone (message : String) (user_type : String) : String :=
  if user_type == "student" then
    String.mk (coffeeL
      (replaceL ("It is recommended").data ("It\x27s a good idea to").data
        (replaceL ("You should").data ("You might want to").data message.data)))
  else message

/-- Python float division: raises `ZeroDivisionError` on a zero divisor. -/
def pyDiv (a b : ℚ) : Except PyError ℚ :=
  if b == 0 then Except.error PyError.zeroDivision else Except.ok (a / b)

/-! ### ResponseGenerator -/

/-- Models `self.tone_styles[user_type]["greeting"]`: dict indexing, so an
unrecognized segment raises `KeyError`. -/
def toneGreeting : String → Except PyError String
  | "student" => Except.ok ("Hey there! ὄB")
  | "professional" => Except.ok ("Good day,")
  | _ => Except.error PyError.keyError

/-- The base text of the budget summary f-string (before the two
conditional closing lines and the tone pass). -/
def budget_summary_text (analysis : BudgetAnalysis) (greeting : String) : String :=
  ("\n") ++ greeting ++ (" Here\x27s your budget analysis:\n\nὋ0 **Income & Spending Overview**\n• Monthly Income: $")
    ++ fmtComma2 analysis.total_income
    ++ ("\n• Total Expenses: $") ++ fmtComma2 analysis.total_expenses
    ++ ("\n• Monthly Savings: $") ++ fmtComma2 analysis.savings
    ++ ("\n• Savings Rate: ") ++ fmtFixed1 analysis.savings_rate
    ++ ("%\n\nὌA **Budget Breakdown**\n• Needs (Housing, Food, Transport): $")
    ++ fmtComma2 analysis.needs_spending
    ++ ("\n• Wants (Entertainment, Shopping): $") ++ fmtComma2 analysis.wants_spending
    ++ ("\n• Recommended Savings Target: $") ++ fmtComma2 analysis.recommended_savings
    ++ (" (20% of income)\n\nἺF **Budget Health: ")
    ++ pyTitle (String.mk (replaceL ("_").data (" ").data analysis.budget_health.data))
    ++ ("**\n")

/-- Models `ResponseGenerator.generate_budget_summary`. -/
def generate_budget_summary (analysis : BudgetAnalysis) (user_profile : UserProfile) :
    Except PyError String :=
  match toneGreeting user_profile.user_type with
  | Except.error e => Except.error e
  | Except.ok greeting =>
    Except.ok (adapt_tone
      (if analysis.budget_health == "excellent" then
        budget_summary_text analysis greeting
          ++ ("\nἱF Outstanding work! You\x27re exceeding savings goals.")
      else if analysis.budget_health == "needs_improvement" then
        budget_summary_text analysis greeting
          ++ ("\n⚠  Let\x27s work on boosting that savings rate. Small changes can make a big difference!")
      else budget_summary_text analysis greeting)
      user_profile.user_type)

/-- Stable descending insertion used to model `sorted(..., reverse=True)`. -/
def insertDesc (x : String × ℚ) : List (String × ℚ) → List (String × ℚ)
  | [] => [x]
  | y :: rest => if y.2 < x.2 then x :: y :: rest else y :: insertDesc x rest

/-- Models `sorted(expenses.items(), key=lambda x: x[1], reverse=True)`. -/
def sortDesc (l : List (String × ℚ)) : List (String × ℚ) :=
  l.foldl (fun acc x => insertDesc x acc) []

/-- The first insight line for the highest expense category. -/
def highestInsight (hc : String) (ha percentage : ℚ) : String :=
  ("Your highest expense is ") ++ hc ++ (": $") ++ fmtComma2 ha ++ (" (")
    ++ fmtFixed1 percentage ++ ("% of total spending)")

/-- The category-specific follow-up tip for the top category. -/
def categoryTip (hc : String) (percentage : ℚ) (user_type : String) : List String :=
  if hc == "dining_out" || hc == "entertainment" then
    if user_type == "student" then
      [("Ὂ1 Try cooking more meals at home or finding free campus activities to reduce this expense.")]
    else
      [("Ὂ1 Consider meal prepping or setting a monthly entertainment budget to control this expense.")]
  else if hc == "rent" then
    if 30 < percentage then
      [("⚠  Housing costs exceed the recommended 30% of income. Consider roommates or relocating if possible.")]
    else []
  else []

/-- The subscription-review tip, appended independently of the top category. -/
def subscriptionTip (expenses : List (String × ℚ)) : List String :=
  if dictHas expenses ("subscriptions") && 50 < dictGet expenses ("subscriptions") then
    [("ὐD Review subscriptions - you might have services you\x27re not using regularly.")]
  else []

/-- Models `ResponseGenerator.generate_spending_insights`: names the top expense
category and its share of total spending.  The share divides by the raw
total, so an all-zero expense mapping raises `ZeroDivisionError`. -/
def generate_spending_insights (expenses : List (String × ℚ)) (user_profile : UserProfile) :
    Except PyError (List String) :=
  match sortDesc expenses with
  | [] =>
    Except.ok ((subscriptionTip expenses).map (fun i => adapt_tone i user_profile.user_type))
  | (hc, ha) :: _ =>
    match pyDiv ha (sumValues expenses) with
    | Except.error e => Except.error e
    | Except.ok frac =>
      Except.ok
        (([highestInsight hc ha (frac * 100)]
            ++ categoryTip hc (frac * 100) user_profile.user_type
            ++ subscriptionTip expenses).map (fun i => adapt_tone i user_profile.user_type))

/-! ### PersonalFinanceChatbot -/

/-- The profile store `self.user_profiles` (string keys, insertion order). -/
abbrev Store := List (String × UserProfile)

/-- Models `user_id in self.user_profiles` / `self.user_profiles[user_id]`. -/
def storeGet (st : Store) (user_id : String) : Option UserProfile :=
  (st.find? (fun kv => kv.1 == user_id)).map (fun kv => kv.2)

/-- Dict assignment on the store. -/
def storePut (st : Store) (user_id : String) (p : UserProfile) : Store :=
  if st.any (fun kv => kv.1 == user_id) then
    st.map (fun kv => if kv.1 == user_id then (user_id, p) else kv)
  else st ++ [(user_id, p)]

/-- Models `PersonalFinanceChatbot.create_user_profile`. -/
def create_user_profile (st : Store) (user_id : String) (profile : UserProfile) : Store :=
  storePut st user_id profile

/-- Models `PersonalFinanceChatbot.update_user_expenses`. -/
def update_user_expenses (st : Store) (user_id : String) (expenses : List (String × ℚ)) : Store :=
  match storeGet st user_id with
  | none => st
  | some p => storePut st user_id { p with expenses := dictUpdate p.expenses expenses }

/-- Fixed message for an unknown identifier. -/
def createProfileMsg : String :=
  "Please create your profile first using create_profile()."

/-- Fixed generic apology produced by the `except Exception` handler. -/
def apologyMsg : String :=
  "I\x27m sorry, I encountered an error processing your request. Please try again."

/-- Fixed guidance string of the tax path. -/
def needIncomeTaxMsg : String :=
  "I need your income information to calculate taxes. Please update your profile with your annual income."

/-- Fixed guidance string of the budget path. -/
def needBudgetMsg : String :=
  "I need your income and expense information to analyze your budget. Please update your profile."

/-- Fixed guidance string of the investment path. -/
def needInvestMsg : String :=
  "I need your income information to provide investment advice. Please update your profile."

/-- Static student tax-tips block. -/
def studentTaxTips : String :=
  "\n• Claim education credits (American Opportunity Credit up to $2,500)\n• Keep receipts for textbooks and school supplies\n• Consider a part-time job for work-study benefits\n"

/-- Static professional tax-tips block. -/
def professionalTaxTips : String :=
  "\n• Maximize 401(k) contributions to reduce taxable income\n• Consider HSA contributions if available\n• Track business expenses if self-employed\n• Review tax-loss harvesting for investments\n"

/-- The composed tax response for a profile that passed the income guard. -/
def tax_query_response (user_profile : UserProfile) : String :=
  let income := user_profile.income.getD 0
  let tax_analysis := calculate_tax_estimate income ("single")
  let response :=
    ("\nὍ3 **Tax Estimate for $") ++ fmtComma0 income
      ++ (" Annual Income**\n\n• Estimated Federal Tax: $") ++ fmtComma2 tax_analysis.total_tax
      ++ ("\n• Effective Tax Rate: ") ++ fmtFixed1 tax_analysis.effective_rate
      ++ ("%\n• After-Tax Income: $") ++ fmtComma2 tax_analysis.after_tax_income
      ++ ("\n\nὊ1 **Tax Planning Tips:**\n")
      ++ (if user_profile.user_type == "student" then studentTaxTips else professionalTaxTips)
  adapt_tone response user_profile.user_type

/-- Models `PersonalFinanceChatbot._handle_tax_query`. -/
def handle_tax_query (user_profile : UserProfile) (query : String) : Except PyError String :=
  if incomeFalsy user_profile.income then Except.ok needIncomeTaxMsg
  else Except.ok (tax_query_response user_profile)

/-- Models `PersonalFinanceChatbot._handle_budget_query`. -/
def handle_budget_query (user_profile : UserProfile) (query : String) : Except PyError String :=
  if incomeFalsy user_profile.income || user_profile.expenses.isEmpty then
    Except.ok needBudgetMsg
  else
    match generate_budget_summary
        (analyze_budget (user_profile.income.getD 0) user_profile.expenses) user_profile with
    | Except.error e => Except.error e
    | Except.ok budget_summary =>
      match generate_spending_insights user_profile.expenses user_profile with
      | Except.error e => Except.error e
      | Except.ok spending_insights =>
        Except.ok (budget_summary ++ ("\n\nὐD **Spending Insights:**\n")
          ++ String.join ((spending_insights.take 3).map (fun insight => ("• ") ++ insight ++ ("\n"))))

/-- One suggestion block of the investment response. -/
def suggestionBlock (s : Suggestion) : String :=
  ("\n**") ++ s.type ++ ("**\n• Suggested Amount: $") ++ fmtComma0 s.allocation
    ++ ("\n• Risk Level: ") ++ s.risk_level
    ++ ("\n• Expected Return: ") ++ s.expected_return
    ++ ("\n• Why: ") ++ s.reason ++ ("\n\n")

/-- The composed investment response once funds were computed. -/
def invest_query_response (user_profile : UserProfile) (available_funds : ℚ) : String :=
  let suggestions := generate_investment_suggestions user_profile available_funds
  let response :=
    ("Ὠ0 **Investment Suggestions for $") ++ fmtComma0 available_funds ++ ("**\n\n")
      ++ String.join (suggestions.map suggestionBlock)
      ++ ("\n⚠  Remember: Past performance doesn\x27t guarantee future results. Consider consulting a financial advisor for personalized advice.")
  adapt_tone response user_profile.user_type

/-- Funds available for investment: 80% of the income left after the
expense total (the income times 0.8 stands in for missing expenses),
floored at 0. -/
def invest_available_funds (user_profile : UserProfile) : ℚ :=
  max 0 ((user_profile.income.getD 0
    - (if user_profile.expenses.isEmpty then user_profile.income.getD 0 * (8/10)
       else sumValues user_profile.expenses)) * (8/10))

/-- Models `PersonalFinanceChatbot._handle_investment_query`. -/
def handle_investment_query (user_profile : UserProfile) (query : String) : Except PyError String :=
  if incomeFalsy user_profile.income then Except.ok needInvestMsg
  else if invest_available_funds user_profile < 100 then
    Except.ok (adapt_tone
      ("Focus on building an emergency fund first before investing. Aim to save at least $1,000 for emergencies.")
      user_profile.user_type)
  else Except.ok (invest_query_response user_profile (invest_available_funds user_profile))

/-- Static student savings-tips block. -/
def studentSavingsTips : String :=
  "\n**Student-Specific Tips:**\n• Start with $1,000 emergency fund\n• Use cashback credit cards responsibly\n• Take advantage of student discounts\n• Consider part-time work or internships\n"

/-- Static professional savings-tips block. -/
def professionalSavingsTips : String :=
  "\n**Professional Tips:**\n• Automate savings transfers\n• Save tax refunds and bonuses\n• Consider employer 401(k) match as free money\n• Set up separate accounts for different goals\n"

/-- Models `PersonalFinanceChatbot._handle_savings_query`: with an empty expense
mapping the target is `income * 0.7`, which raises `TypeError` when the
income is `None` (no guard exists on this path). -/
def handle_savings_query (user_profile : UserProfile) (query : String) : Except PyError String :=
  match (if user_profile.expenses.isEmpty then
           match user_profile.income with
           | none => Except.error PyError.typeError
           | some inc => Except.ok (inc * (7/10))
         else Except.ok (sumValues user_profile.expenses) : Except PyError ℚ) with
  | Except.error e => Except.error e
  | Except.ok base =>
    let emergency_fund_target := base * 6
    Except.ok (adapt_tone
      (("\nὉ6 **Savings Strategy**\n\n**Emergency Fund Goal:** $") ++ fmtComma0 emergency_fund_target
        ++ ("\n(6 months of expenses)\n\n**Recommended Savings Accounts:**\n• High-Yield Savings: 4-5% APY\n• Money Market Account: 3-4% APY\n• CDs: 4-5% APY (if you won\x27t need the money soon)\n\n")
        ++ (if user_profile.user_type == "student" then studentSavingsTips else professionalSavingsTips))
      user_profile.user_type)

/-- Static student general-advice block. -/
def studentGeneralAdvice : String :=
  "\nὟ3 **General Financial Tips for Students:**\n\n• Create a simple budget with your income (jobs, financial aid)\n• Build credit responsibly with a student credit card\n• Take advantage of student discounts everywhere\n• Start an emergency fund, even if it\x27s just $20/month\n• Learn about investing early - time is your biggest advantage\n• Avoid unnecessary debt beyond student loans\n"

/-- Static professional general-advice block. -/
def professionalGeneralAdvice : String :=
  "\nὍ7 **General Financial Tips for Professionals:**\n\n• Follow the 50/30/20 rule (needs/wants/savings)\n• Maximize employer 401(k) match\n• Build 3-6 months emergency fund\n• Diversify investments across asset classes\n• Review and optimize insurance coverage\n• Plan for major life events (house, family, retirement)\n• Consider tax-advantaged accounts (HSA, IRA)\n"

/-- Models `PersonalFinanceChatbot._handle_general_query`:
`general_advice.get(user_type, professional)`. -/
def handle_general_query (user_profile : UserProfile) (query : String) : Except PyError String :=
  Except.ok (adapt_tone
    (if user_profile.user_type == "student" then studentGeneralAdvice else professionalGeneralAdvice)
    user_profile.user_type)

/-- Intent keyword set of the tax path. -/
def tax_keywords : List String := ["tax", "taxes", "federal"]

/-- Intent keyword set of the budget path. -/
def budget_keywords : List String := ["budget", "spending", "expenses"]

/-- Intent keyword set of the investment path. -/
def invest_keywords : List String := ["invest", "investment", "portfolio"]

/-- Intent keyword set of the savings path. -/
def savings_keywords : List String := ["save", "savings", "emergency fund"]

/-- The `if/elif` keyword chain of `process_query`, dispatching on the
lower-cased query in fixed priority order. -/
def dispatch (user_profile : UserProfile) (query : String) : Except PyError String :=
  if kwAny tax_keywords (pyLower query) then handle_tax_query user_profile query
  else if kwAny budget_keywords (pyLower query) then handle_budget_query user_profile query
  else if kwAny invest_keywords (pyLower query) then handle_investment_query user_profile query
  else if kwAny savings_keywords (pyLower query) then handle_savings_query user_profile query
  else handle_general_query user_profile query

/-- Models `PersonalFinanceChatbot.process_query`: unknown identifiers get the
fixed create-profile message; every handler failure is caught by the
`except Exception` block and becomes the fixed apology.  The store is
returned unchanged (query handling never assigns to it). -/
def process_query (st : Store) (user_id query : String) : String × Store :=
  match storeGet st user_id with
  | none => (createProfileMsg, st)
  | some user_profile =>
    match dispatch user_profile query with
    | Except.ok response => (response, st)
    | Except.error _ => (apologyMsg, st)

/-- Models `PersonalFinanceChatbot.get_user_profile_summary`.  The f-string
interpolates `{profile.income:,.2f}` unconditionally (the intended
conditional sits inertly inside the string literal), so a stored profile
with no income raises `TypeError`. -/
def get_user_profile_summary (st : Store) (user_id : String) : Except PyError String :=
  match storeGet st user_id with
  | none => Except.ok ("No profile found.")
  | some profile =>
    match fmtOptComma2 profile.income with
    | Except.error e => Except.error e
    | Except.ok incomeStr =>
      let summary :=
        ("\nὑ4 **Profile Summary**\n• User Type: ") ++ pyTitle profile.user_type
          ++ ("\n• Age: ") ++ toString profile.age
          ++ ("\n• Income: $") ++ incomeStr
          ++ ("/year\x22 if profile.income else \x22Not set\x22\n• Risk Tolerance: ")
          ++ pyTitle profile.risk_tolerance ++ ("\n")
      let summary :=
        if profile.expenses.isEmpty then summary
        else summary ++ ("• Monthly Expenses: $") ++ fmtComma2 (sumValues profile.expenses)
      Except.ok summary

deriving instance DecidableEq for Except

/-! ### Lemmas about the tax bracket loop -/

/-- Coverage predicate `covers a bs`: the bracket rows `bs` tile the half-line `[a, ∞)` in
ascending order with no gaps and no overlaps (the source table satisfies
this from `a = 0`). -/
def covers : ℚ → List TaxBracket → Prop
  | _, [] => False
  | a, b :: rest =>
    b.lower = a ∧
      match b.upper with
      | none => rest = []
      | some u => a < u ∧ covers u rest

lemma covers_singleBrackets : covers 0 singleBrackets := by
  simp only [singleBrackets, covers]
  norm_num

lemma singleBrackets_rate_pos : ∀ b ∈ singleBrackets, 0 < b.rate := by
  intro b hb
  simp only [singleBrackets, List.mem_cons, List.not_mem_nil, or_false] at hb
  rcases hb with rfl | rfl | rfl | rfl | rfl | rfl | rfl <;> norm_num

lemma taxLoop_stop (income : ℚ) (b : TaxBracket) (rest : List TaxBracket)
    (h : income ≤ b.lower) : taxLoop income (b :: rest) = (0, []) := by
  simp [taxLoop, h]

/-- Total tax is non-negative, and positive as soon as the income exceeds
the anchor of a covering table with positive rates. -/
lemma taxLoop_total_nonneg_pos (income : ℚ) :
    ∀ (bs : List TaxBracket) (a : ℚ), covers a bs → (∀ b ∈ bs, 0 < b.rate) →
      0 ≤ (taxLoop income bs).1 ∧ (a < income → 0 < (taxLoop income bs).1) := by
  intro bs
  induction bs with
  | nil => intro a hc _; exact hc.elim
  | cons b rest ih =>
    intro a hc hr
    obtain ⟨hl, hrest⟩ := hc
    by_cases hle : income ≤ b.lower
    · rw [taxLoop_stop income b rest hle]
      refine ⟨le_refl 0, ?_⟩
      intro hlt
      rw [hl] at hle
      exact absurd (lt_of_lt_of_le hlt hle) (lt_irrefl a)
    · push_neg at hle
      have hrate : 0 < b.rate := hr b (List.mem_cons_self b rest)
      have htaxable : 0 < minUpper income b.upper - b.lower := by
        cases hu : b.upper with
        | none => simp [minUpper]; linarith
        | some u =>
          rw [hu] at hrest
          obtain ⟨hau, _⟩ := hrest
          simp only [minUpper]
          rw [hl]
          have : a < min income u := lt_min (by linarith [hl]) hau
          linarith [hl ▸ this]
      have hrestnn : 0 ≤ (taxLoop income rest).1 := by
        cases hu : b.upper with
        | none =>
          rw [hu] at hrest
          subst hrest
          simp [taxLoop]
        | some u =>
          rw [hu] at hrest
          exact (ih u hrest.2 (fun x hx => hr x (List.mem_cons_of_mem b hx))).1
      have hfst : (taxLoop income (b :: rest)).1
          = (minUpper income b.upper - b.lower) * b.rate + (taxLoop income rest).1 := by
        simp [taxLoop, not_le.mpr hle]
      constructor
      · rw [hfst]; positivity
      · intro _
        rw [hfst]
        have : 0 < (minUpper income b.upper - b.lower) * b.rate := by positivity
        linarith

/-- The taxable amounts recorded in the breakdown sum to `income - a` for
any covering table anchored at `a ≤ income`. -/
lemma taxLoop_taxable_sum (income : ℚ) :
    ∀ (bs : List TaxBracket) (a : ℚ), covers a bs → a ≤ income →
      (((taxLoop income bs).2).map (fun e => e.taxable_amount)).sum = income - a := by
  intro bs
  induction bs with
  | nil => intro a hc _; exact hc.elim
  | cons b rest ih =>
    intro a hc ha
    obtain ⟨hl, hrest⟩ := hc
    by_cases hle : income ≤ b.lower
    · rw [taxLoop_stop income b rest hle]
      have : income = a := le_antisymm (hl ▸ hle) ha
      simp [this]
    · push_neg at hle
      have hsnd : (taxLoop income (b :: rest)).2
          = (if 0 < minUpper income b.upper - b.lower then [entryOf income b] else [])
              ++ (taxLoop income rest).2 := by
        simp [taxLoop, not_le.mpr hle]
      cases hu : b.upper with
      | none =>
        rw [hu] at hrest
        subst hrest
        have htx : minUpper income b.upper - b.lower = income - a := by
          simp [minUpper, hu, hl]
        have hpos : 0 < minUpper income b.upper - b.lower := by
          rw [htx]; linarith [hl ▸ hle]
        rw [hsnd, if_pos hpos]
        simp [taxLoop, entryOf, htx]
      | some u =>
        rw [hu] at hrest
        obtain ⟨hau, hcov⟩ := hrest
        by_cases hiu : income ≤ u
        · have htx : minUpper income b.upper - b.lower = income - a := by
            simp [minUpper, hu, hl, min_eq_left hiu]
          have hpos : 0 < minUpper income b.upper - b.lower := by
            rw [htx]; linarith [hl ▸ hle]
          have hrz : (taxLoop income rest).2 = [] := by
            cases rest with
            | nil => exact hcov.elim
            | cons r rest2 =>
              have : income ≤ r.lower := by rw [hcov.1]; exact hiu
              rw [taxLoop_stop income r rest2 this]
          rw [hsnd, if_pos hpos, hrz]
          simp [entryOf, htx]
        · push_neg at hiu
          have htx : minUpper income b.upper - b.lower = u - a := by
            simp [minUpper, hu, hl, min_eq_right (le_of_lt hiu)]
          have hpos : 0 < minUpper income b.upper - b.lower := by
            rw [htx]; linarith
          have hrec := ih u hcov (le_of_lt hiu)
          rw [hsnd, if_pos hpos]
          simp only [List.map_append, List.sum_append, hrec]
          simp [entryOf, htx]

/-- Every breakdown entry has a positive taxable amount. -/
lemma taxLoop_breakdown_pos (income : ℚ) :
    ∀ (bs : List TaxBracket), ∀ e ∈ (taxLoop income bs).2, 0 < e.taxable_amount := by
  intro bs
  induction bs with
  | nil => intro e he; simp [taxLoop] at he
  | cons b rest ih =>
    intro e he
    by_cases hle : income ≤ b.lower
    · rw [taxLoop_stop income b rest hle] at he
      simp at he
    · have hsnd : (taxLoop income (b :: rest)).2
          = (if 0 < minUpper income b.upper - b.lower then [entryOf income b] else [])
              ++ (taxLoop income rest).2 := by
        simp [taxLoop, hle]
      rw [hsnd] at he
      rcases List.mem_append.mp he with hmem | hmem
      · by_cases hpos : 0 < minUpper income b.upper - b.lower
        · rw [if_pos hpos] at hmem
          simp at hmem
          rw [hmem]
          exact hpos
        · rw [if_neg hpos] at hmem
          simp at hmem
      · exact ih e hmem

/-- The breakdown is the order-preserving image of a sublist of the table:
entries appear in ascending bracket order. -/
lemma taxLoop_breakdown_sublist (income : ℚ) :
    ∀ (bs : List TaxBracket), ∃ sel : List TaxBracket,
      List.Sublist sel bs ∧ (taxLoop income bs).2 = sel.map (entryOf income) := by
  intro bs
  induction bs with
  | nil => exact ⟨[], List.Sublist.refl [], rfl⟩
  | cons b rest ih =>
    obtain ⟨sel, hsub, heq⟩ := ih
    by_cases hle : income ≤ b.lower
    · refine ⟨[], List.nil_sublist _, ?_⟩
      rw [taxLoop_stop income b rest hle]
      rfl
    · have hsnd : (taxLoop income (b :: rest)).2
          = (if 0 < minUpper income b.upper - b.lower then [entryOf income b] else [])
              ++ (taxLoop income rest).2 := by
        simp [taxLoop, hle]
      by_cases hpos : 0 < minUpper income b.upper - b.lower
      · refine ⟨b :: sel, List.Sublist.cons₂ b hsub, ?_⟩
        rw [hsnd, if_pos hpos, heq]
        rfl
      · refine ⟨sel, List.Sublist.cons b hsub, ?_⟩
        rw [hsnd, if_neg hpos, heq]
        rfl

lemma calculate_single_unfold (income : ℚ) :
    calculate_tax_estimate income ("single")
      = { total_tax := (taxLoop income singleBrackets).1
          effective_rate :=
            if 0 < income then (taxLoop income singleBrackets).1 / income * 100 else 0
          after_tax_income := income - (taxLoop income singleBrackets).1
          breakdown := (taxLoop income singleBrackets).2 } := rfl

/-- C3: for every income ≥ 0, after-tax income plus total tax gives back
the income exactly (rationals model the float arithmetic, so the
tolerance is 0), and the effective rate is 0 exactly when the income is 0;
for positive income the effective rate is strictly positive. -/
theorem calculate_tax_estimate_conservation (income : ℚ) (h : 0 ≤ income) :
    (calculate_tax_estimate income ("single")).after_tax_income
        + (calculate_tax_estimate income ("single")).total_tax = income ∧
    ((calculate_tax_estimate income ("single")).effective_rate = 0 ↔ income = 0) ∧
    (0 < income → 0 < (calculate_tax_estimate income ("single")).effective_rate) := by
  have hpos := taxLoop_total_nonneg_pos income singleBrackets 0
    covers_singleBrackets singleBrackets_rate_pos
  refine ⟨?_, ⟨?_, ?_⟩, ?_⟩
  · show income - (taxLoop income singleBrackets).1 + (taxLoop income singleBrackets).1 = income
    ring
  · show (if 0 < income then (taxLoop income singleBrackets).1 / income * 100 else 0) = 0
      → income = 0
    intro hr
    by_contra hne
    have hgt : 0 < income := lt_of_le_of_ne h (Ne.symm hne)
    rw [if_pos hgt] at hr
    have htpos : 0 < (taxLoop income singleBrackets).1 := hpos.2 hgt
    have : 0 < (taxLoop income singleBrackets).1 / income * 100 := by positivity
    linarith
  · intro h0
    show (if 0 < income then (taxLoop income singleBrackets).1 / income * 100 else 0) = 0
    rw [if_neg (by rw [h0]; exact lt_irrefl 0)]
  · intro hgt
    show 0 < (if 0 < income then (taxLoop income singleBrackets).1 / income * 100 else 0)
    rw [if_pos hgt]
    have htpos : 0 < (taxLoop income singleBrackets).1 := hpos.2 hgt
    positivity

/-- Witness for C3 at income 1234. -/
theorem calculate_tax_estimate_conservation_witness :
    (0:ℚ) ≤ 1234 ∧
    ((calculate_tax_estimate 1234 ("single")).after_tax_income
        + (calculate_tax_estimate 1234 ("single")).total_tax = 1234 ∧
      ((calculate_tax_estimate 1234 ("single")).effective_rate = 0 ↔ (1234:ℚ) = 0) ∧
      ((0:ℚ) < 1234 → 0 < (calculate_tax_estimate 1234 ("single")).effective_rate)) :=
  ⟨by norm_num, calculate_tax_estimate_conservation 1234 (by norm_num)⟩

/-- C4: for every income ≥ 0 the taxable amounts of the breakdown sum to the
income, every listed entry has a strictly positive taxable amount, and the
breakdown is the order-preserving image of a sublist of the ascending
bracket table (ascending bracket order). -/
theorem calculate_tax_estimate_breakdown_props (income : ℚ) (h : 0 ≤ income) :
    (((calculate_tax_estimate income ("single")).breakdown.map
        (fun e => e.taxable_amount)).sum = income) ∧
    (∀ e ∈ (calculate_tax_estimate income ("single")).breakdown, 0 < e.taxable_amount) ∧
    (∃ sel : List TaxBracket, List.Sublist sel singleBrackets ∧
      (calculate_tax_estimate income ("single")).breakdown = sel.map (entryOf income)) := by
  have hb : (calculate_tax_estimate income ("single")).breakdown
      = (taxLoop income singleBrackets).2 := rfl
  rw [hb]
  refine ⟨?_, ?_, ?_⟩
  · have := taxLoop_taxable_sum income singleBrackets 0 covers_singleBrackets h
    simpa using this
  · exact taxLoop_breakdown_pos income singleBrackets
  · exact taxLoop_breakdown_sublist income singleBrackets

/-- Witness for C4 at income 20000. -/
theorem calculate_tax_estimate_breakdown_props_witness :
    (0:ℚ) ≤ 20000 ∧
    ((((calculate_tax_estimate 20000 ("single")).breakdown.map
        (fun e => e.taxable_amount)).sum = 20000) ∧
      (∀ e ∈ (calculate_tax_estimate 20000 ("single")).breakdown, 0 < e.taxable_amount) ∧
      (∃ sel : List TaxBracket, List.Sublist sel singleBrackets ∧
        (calculate_tax_estimate 20000 ("single")).breakdown = sel.map (entryOf 20000))) :=
  ⟨by norm_num, calculate_tax_estimate_breakdown_props 20000 (by norm_num)⟩

lemma taxLoop_15000_total : (taxLoop 15000 singleBrackets).1 = 1580 := by
  norm_num [taxLoop, singleBrackets, minUpper, min_def]

/-- C7 counterexample: at income 15000 the effective rate the code
computes is 158/15 ≈ 10.53%, which is more than a full percentage point
away from the claimed ≈ 9.53%. -/
theorem tax_scenario_15000_counterexample :
    (calculate_tax_estimate 15000 ("single")).effective_rate = 158 / 15 ∧
    1 < |(calculate_tax_estimate 15000 ("single")).effective_rate - 953 / 100| := by
  have hrate : (calculate_tax_estimate 15000 ("single")).effective_rate = 158 / 15 := by
    show (if (0:ℚ) < 15000 then (taxLoop 15000 singleBrackets).1 / 15000 * 100 else 0)
      = 158 / 15
    rw [if_pos (by norm_num), taxLoop_15000_total]
    norm_num
  refine ⟨hrate, ?_⟩
  rw [hrate, abs_of_pos (by norm_num : (0:ℚ) < 158 / 15 - 953 / 100)]
  norm_num

/-- C7 amended: at income 15000 the breakdown is non-empty and the
effective rate is exactly 158/15 ≈ 10.53% (not 9.53%). -/
theorem tax_scenario_15000 :
    (calculate_tax_estimate 15000 ("single")).breakdown ≠ [] ∧
    (calculate_tax_estimate 15000 ("single")).effective_rate = 158 / 15 := by
  constructor
  · show (taxLoop 15000 singleBrackets).2 ≠ []
    norm_num [taxLoop, singleBrackets, minUpper, min_def]
    exact List.cons_ne_nil _ _
  · show (if (0:ℚ) < 15000 then (taxLoop 15000 singleBrackets).1 / 15000 * 100 else 0)
      = 158 / 15
    rw [if_pos (by norm_num), taxLoop_15000_total]
    norm_num

/-! ### Lemmas about the budget category aggregates -/

lemma dictGet_cons_ne (kv : String × ℚ) (rest : List (String × ℚ)) (c : String)
    (h : kv.1 ≠ c) : dictGet (kv :: rest) c = dictGet rest c := by
  simp [dictGet, h]

lemma dictGet_not_mem (m : List (String × ℚ)) (k : String)
    (h : k ∉ m.map Prod.fst) : dictGet m k = 0 := by
  induction m with
  | nil => rfl
  | cons kv rest ih =>
    simp only [List.map_cons, List.mem_cons, not_or] at h
    have hne : (kv.1 == k) = false := by
      simp only [beq_eq_false_iff_ne, ne_eq]
      exact fun hkk => h.1 hkk.symm
    simp [dictGet, hne, ih h.2]

lemma catSum_skip (k : String) (v : ℚ) (rest : List (String × ℚ)) (cats : List String)
    (hk : k ∉ cats) :
    (cats.map (dictGet ((k, v) :: rest))).sum = (cats.map (dictGet rest)).sum := by
  induction cats with
  | nil => rfl
  | cons c cs ih =>
    simp only [List.mem_cons, not_or] at hk
    have h1 : dictGet ((k, v) :: rest) c = dictGet rest c :=
      dictGet_cons_ne (k, v) rest c hk.1
    simp [List.map_cons, h1, ih hk.2]

lemma catSum_cons (cats : List String) (k : String) (v : ℚ) (rest : List (String × ℚ))
    (hnd : cats.Nodup) (hk : dictGet rest k = 0) :
    (cats.map (dictGet ((k, v) :: rest))).sum
      = (if k ∈ cats then v else 0) + (cats.map (dictGet rest)).sum := by
  induction cats with
  | nil => simp
  | cons c cs ih =>
    obtain ⟨hnotin, hnd2⟩ := List.nodup_cons.mp hnd
    by_cases hkc : k = c
    · subst hkc
      have h1 : dictGet ((k, v) :: rest) k = v := by simp [dictGet]
      rw [List.map_cons, List.sum_cons, h1, catSum_skip k v rest cs hnotin]
      simp [List.mem_cons, hk]
    · have h1 : dictGet ((k, v) :: rest) c = dictGet rest c :=
        dictGet_cons_ne (k, v) rest c hkc
      have hmem : (k ∈ c :: cs) ↔ (k ∈ cs) := by
        simp [List.mem_cons, hkc]
      simp only [List.map_cons, List.sum_cons]
      rw [h1, ih hnd2, if_congr hmem rfl rfl]
      ring

lemma needs_nodup : needs_categories.Nodup := by decide

lemma wants_nodup : wants_categories.Nodup := by decide

lemma needs_wants_disj : ∀ c ∈ needs_categories, c ∉ wants_categories := by decide

/-- Core inequality: the two whitelist aggregates never exceed the raw
expense total, with equality exactly when every entry outside both
whitelists carries amount 0. -/
lemma needs_wants_sum (m : List (String × ℚ)) (hnd : (m.map Prod.fst).Nodup)
    (hv : ∀ p ∈ m, 0 ≤ p.2) :
    (needs_categories.map (dictGet m)).sum + (wants_categories.map (dictGet m)).sum
        ≤ sumValues m ∧
    ((needs_categories.map (dictGet m)).sum + (wants_categories.map (dictGet m)).sum
        = sumValues m ↔
      ∀ p ∈ m, p.1 ∈ needs_categories ∨ p.1 ∈ wants_categories ∨ p.2 = 0) := by
  induction m with
  | nil => simp [sumValues, needs_categories, wants_categories, dictGet]
  | cons kv rest ih =>
    obtain ⟨k, v⟩ := kv
    have hknotin : k ∉ rest.map Prod.fst := by
      have := (List.nodup_cons.mp hnd).1
      simpa using this
    have hnd2 : (rest.map Prod.fst).Nodup := by
      have := (List.nodup_cons.mp hnd).2
      simpa using this
    have hv0 : 0 ≤ v := hv (k, v) (List.mem_cons_self _ _)
    have hvrest : ∀ p ∈ rest, 0 ≤ p.2 := fun p hp => hv p (List.mem_cons_of_mem _ hp)
    have hgr : dictGet rest k = 0 := dictGet_not_mem rest k hknotin
    have hneeds := catSum_cons needs_categories k v rest needs_nodup hgr
    have hwants := catSum_cons wants_categories k v rest wants_nodup hgr
    have hsum : sumValues ((k, v) :: rest) = v + sumValues rest := by
      simp [sumValues]
    obtain ⟨ihle, ihiff⟩ := ih hnd2 hvrest
    have hA : (if k ∈ needs_categories then v else 0)
          + (if k ∈ wants_categories then v else 0) ≤ v ∧
        ((if k ∈ needs_categories then v else 0)
            + (if k ∈ wants_categories then v else 0) = v
          ↔ (k ∈ needs_categories ∨ k ∈ wants_categories ∨ v = 0)) := by
      by_cases hn : k ∈ needs_categories
      · have hw : k ∉ wants_categories := needs_wants_disj k hn
        simp [hn, hw]
      · by_cases hw : k ∈ wants_categories
        · simp [hn, hw]
        · simp only [hn, hw, if_false, false_or, add_zero]
          exact ⟨hv0, eq_comm⟩
    constructor
    · rw [hneeds, hwants, hsum]
      linarith [hA.1, ihle]
    · rw [hneeds, hwants, hsum]
      constructor
      · intro heq
        have hAe : (if k ∈ needs_categories then v else 0)
            + (if k ∈ wants_categories then v else 0) = v := by
          linarith [hA.1, ihle]
        have hSe : (needs_categories.map (dictGet rest)).sum
            + (wants_categories.map (dictGet rest)).sum = sumValues rest := by
          linarith [hA.1, ihle]
        intro p hp
        rcases List.mem_cons.mp hp with hpk | hprest
        · rw [hpk]
          exact hA.2.mp hAe
        · exact (ihiff.mp hSe) p hprest
      · intro hall
        have h1 : (if k ∈ needs_categories then v else 0)
            + (if k ∈ wants_categories then v else 0) = v := by
          refine hA.2.mpr ?_
          have := hall (k, v) (List.mem_cons_self _ _)
          simpa using this
        have h2 : (needs_categories.map (dictGet rest)).sum
            + (wants_categories.map (dictGet rest)).sum = sumValues rest :=
          ihiff.mpr (fun p hp => hall p (List.mem_cons_of_mem _ hp))
        linarith

/-- C5 amended: for every expense mapping (unique keys, non-negative
values) the two aggregates never exceed the total, and equality holds
exactly when every category either belongs to one of the two whitelists
or carries amount 0 — membership in the whitelists alone is not
necessary, since zero-valued foreign keys also preserve equality. -/
theorem analyze_budget_needs_wants (income : ℚ) (m : List (String × ℚ))
    (hnd : (m.map Prod.fst).Nodup) (hv : ∀ p ∈ m, 0 ≤ p.2) :
    (analyze_budget income m).needs_spending + (analyze_budget income m).wants_spending
        ≤ (analyze_budget income m).total_expenses ∧
    ((analyze_budget income m).needs_spending + (analyze_budget income m).wants_spending
        = (analyze_budget income m).total_expenses ↔
      ∀ p ∈ m, p.1 ∈ needs_categories ∨ p.1 ∈ wants_categories ∨ p.2 = 0) := by
  have h1 : (analyze_budget income m).needs_spending
      = (needs_categories.map (dictGet m)).sum := rfl
  have h2 : (analyze_budget income m).wants_spending
      = (wants_categories.map (dictGet m)).sum := rfl
  have h3 : (analyze_budget income m).total_expenses = sumValues m := rfl
  rw [h1, h2, h3]
  exact needs_wants_sum m hnd hv

/-- Witness for C5 at a two-entry mapping with one foreign key. -/
theorem analyze_budget_needs_wants_witness :
    ((([(("rent"), (5:ℚ)), (("candles"), 2)]).map Prod.fst).Nodup) ∧
    (∀ p ∈ [(("rent"), (5:ℚ)), (("candles"), 2)], 0 ≤ p.2) ∧
    ((analyze_budget 100 [(("rent"), (5:ℚ)), (("candles"), 2)]).needs_spending
        + (analyze_budget 100 [(("rent"), (5:ℚ)), (("candles"), 2)]).wants_spending
        ≤ (analyze_budget 100 [(("rent"), (5:ℚ)), (("candles"), 2)]).total_expenses ∧
      ((analyze_budget 100 [(("rent"), (5:ℚ)), (("candles"), 2)]).needs_spending
          + (analyze_budget 100 [(("rent"), (5:ℚ)), (("candles"), 2)]).wants_spending
          = (analyze_budget 100 [(("rent"), (5:ℚ)), (("candles"), 2)]).total_expenses ↔
        ∀ p ∈ [(("rent"), (5:ℚ)), (("candles"), 2)],
          p.1 ∈ needs_categories ∨ p.1 ∈ wants_categories ∨ p.2 = 0)) :=
  ⟨by decide, by norm_num,
   analyze_budget_needs_wants 100 [(("rent"), 5), (("candles"), 2)] (by decide) (by norm_num)⟩

/-- C5 counterexample: the mapping `{textbooks: 0}` has non-negative
values and satisfies `needs_total + wants_total = total_expenses`, yet its
only key belongs to neither whitelist — equality does not force whitelist
membership. -/
theorem analyze_budget_equality_counterexample :
    (∀ p ∈ [(("textbooks"), (0:ℚ))], 0 ≤ p.2) ∧
    (analyze_budget 1000 [(("textbooks"), (0:ℚ))]).needs_spending
        + (analyze_budget 1000 [(("textbooks"), (0:ℚ))]).wants_spending
        = (analyze_budget 1000 [(("textbooks"), (0:ℚ))]).total_expenses ∧
    ("textbooks") ∉ needs_categories ∧ ("textbooks") ∉ wants_categories ∧
    (("textbooks"), (0:ℚ)) ∈ [(("textbooks"), (0:ℚ))] := by
  refine ⟨by norm_num, ?_, by decide, by decide, List.mem_cons_self _ _⟩
  show (needs_categories.map (dictGet [(("textbooks"), (0:ℚ))])).sum
      + (wants_categories.map (dictGet [(("textbooks"), (0:ℚ))])).sum
      = sumValues [(("textbooks"), (0:ℚ))]
  norm_num [needs_categories, wants_categories, dictGet, sumValues]

/-- C6: a professional profile with any risk tolerance other than the
recognized "low" and "high" branches (so "moderate" or any unrecognized
value) receives the empty suggestion list, for every funds value ≥ 0. -/
theorem generate_investment_suggestions_moderate_empty (p : UserProfile) (funds : ℚ)
    (hseg : p.user_type = "professional") (hlow : p.risk_tolerance ≠ "low")
    (hhigh : p.risk_tolerance ≠ "high") (hfunds : 0 ≤ funds) :
    generate_investment_suggestions p funds = [] := by
  have h1 : (p.user_type == "student") = false := by
    rw [hseg]; rfl
  have h2 : (p.risk_tolerance == "low") = false := beq_eq_false_iff_ne.mpr hlow
  have h3 : (p.risk_tolerance == "high") = false := beq_eq_false_iff_ne.mpr hhigh
  simp [generate_investment_suggestions, h1, h2, h3]

/-- Witness for C6 at a concrete professional/moderate profile. -/
theorem generate_investment_suggestions_moderate_empty_witness :
    (UserProfile.mk ("professional") 30 (some 50000) [] [] ("moderate")).user_type
        = "professional" ∧
    (UserProfile.mk ("professional") 30 (some 50000) [] [] ("moderate")).risk_tolerance
        ≠ "low" ∧
    (UserProfile.mk ("professional") 30 (some 50000) [] [] ("moderate")).risk_tolerance
        ≠ "high" ∧
    (0:ℚ) ≤ 500 ∧
    generate_investment_suggestions
      (UserProfile.mk ("professional") 30 (some 50000) [] [] ("moderate")) 500 = [] :=
  ⟨rfl, by decide, by decide, by norm_num,
   generate_investment_suggestions_moderate_empty _ 500 rfl (by decide) (by decide) (by norm_num)⟩

/-! ### Head-preservation lemmas for the tone adapter

The guard messages of the tax/budget/investment paths all start with the
letter I, while every composed analyzer response starts with a different
character that the tone adapter preserves.  These lemmas let us read off
which branch produced a response from its first character. -/

lemma data_head_append (s t : String) (c : Char) (h : s.data.head? = some c) :
    (s ++ t).data.head? = some c := by
  rw [String.data_append]
  cases hm : s.data with
  | nil => rw [hm] at h; simp at h
  | cons a l =>
    rw [hm] at h
    simp only [List.head?] at h
    simp [h]

lemma replaceL_nil_pat (rep l : List Char) : replaceL [] rep l = l := by
  cases l with
  | nil => rw [replaceL]
  | cons c rest => rw [replaceL, dif_pos rfl]

lemma replaceL_cons_ne (pat rep : List Char) (c : Char) (rest : List Char)
    (h : pat.head? ≠ some c) :
    replaceL pat rep (c :: rest) = c :: replaceL pat rep rest := by
  cases pat with
  | nil => rw [replaceL_nil_pat, replaceL_nil_pat]
  | cons p ps =>
    have hpc : (p == c) = false := by
      refine beq_eq_false_iff_ne.mpr ?_
      intro he
      exact h (by rw [List.head?, he])
    have hlw : leadsWith (p :: ps) (c :: rest) = false := by
      simp [leadsWith, hpc]
    rw [replaceL]
    rw [dif_neg (List.cons_ne_nil p ps)]
    rw [if_neg (by simp [hlw])]

lemma coffeeL_cons (c : Char) (rest : List Char) :
    ∃ t, coffeeL (c :: rest) = c :: t := by
  rw [coffeeL]
  by_cases h : (c == '$') = true
  · rw [if_pos h]
    by_cases hd : (rest.takeWhile Char.isDigit).isEmpty = true
    · rw [if_pos hd]; exact ⟨_, rfl⟩
    · rw [if_neg (by simp [hd])]; exact ⟨_, rfl⟩
  · rw [if_neg (by simp [h])]; exact ⟨_, rfl⟩

lemma adapt_tone_head (msg : String) (t : String) (c : Char)
    (h : msg.data.head? = some c) (h1 : c ≠ 'Y') (h2 : c ≠ 'I') :
    (adapt_tone msg t).data.head? = some c := by
  unfold adapt_tone
  by_cases ht : (t == "student") = true
  · rw [if_pos ht]
    obtain ⟨restm, hmsg⟩ : ∃ restm, msg.data = c :: restm := by
      cases hm : msg.data with
      | nil => rw [hm] at h; simp at h
      | cons a l =>
        rw [hm] at h
        simp only [List.head?, Option.some.injEq] at h
        exact ⟨l, by rw [h]⟩
    rw [hmsg]
    have e1 : replaceL ("You should").data ("You might want to").data (c :: restm)
        = c :: replaceL ("You should").data ("You might want to").data restm := by
      apply replaceL_cons_ne
      have : ("You should").data.head? = some 'Y' := rfl
      rw [this]
      simp
      exact fun he => h1 he.symm
    rw [e1]
    have e2 : replaceL ("It is recommended").data ("It\x27s a good idea to").data
          (c :: replaceL ("You should").data ("You might want to").data restm)
        = c :: replaceL ("It is recommended").data ("It\x27s a good idea to").data
            (replaceL ("You should").data ("You might want to").data restm) := by
      apply replaceL_cons_ne
      have : ("It is recommended").data.head? = some 'I' := rfl
      rw [this]
      simp
      exact fun he => h2 he.symm
    rw [e2]
    obtain ⟨tl, he3⟩ := coffeeL_cons c
      (replaceL ("It is recommended").data ("It\x27s a good idea to").data
        (replaceL ("You should").data ("You might want to").data restm))
    rw [he3]
    rfl
  · rw [if_neg (by simp at ht ⊢; exact ht)]
    exact h

lemma needIncomeTaxMsg_head : needIncomeTaxMsg.data.head? = some 'I' := rfl

lemma needBudgetMsg_head : needBudgetMsg.data.head? = some 'I' := rfl

lemma needInvestMsg_head : needInvestMsg.data.head? = some 'I' := rfl

lemma tax_query_response_head (p : UserProfile) :
    (tax_query_response p).data.head? = some '\n' := by
  unfold tax_query_response
  refine adapt_tone_head _ _ _ ?_ (by decide) (by decide)
  repeat apply data_head_append
  rfl

lemma generate_budget_summary_head (analysis : BudgetAnalysis) (p : UserProfile) (s : String)
    (h : generate_budget_summary analysis p = Except.ok s) :
    s.data.head? = some '\n' := by
  unfold generate_budget_summary at h
  cases hg : toneGreeting p.user_type with
  | error e => rw [hg] at h; exact absurd h (by simp)
  | ok g =>
    rw [hg] at h
    simp only [Except.ok.injEq] at h
    rw [← h]
    refine adapt_tone_head _ _ _ ?_ (by decide) (by decide)
    split_ifs with h1 h2 <;>
      · unfold budget_summary_text
        repeat apply data_head_append
        rfl

lemma emergency_fund_msg_head (t : String) :
    (adapt_tone
      ("Focus on building an emergency fund first before investing. Aim to save at least $1,000 for emergencies.")
      t).data.head? = some 'F' :=
  adapt_tone_head _ _ _ rfl (by decide) (by decide)

lemma invest_query_response_head (p : UserProfile) (funds : ℚ) :
    (invest_query_response p funds).data.head? = some 'Ὠ' := by
  unfold invest_query_response
  refine adapt_tone_head _ _ _ ?_ (by decide) (by decide)
  repeat apply data_head_append
  rfl

/-- C2 amended: each guard returns its fixed guidance string exactly when
the profile data is falsy in the Python sense — income `None` OR income `0`
for the tax and investment paths (a present income of 0 is treated like a
missing one, contrary to the claim), and additionally an empty expense
mapping for the budget path; with a truthy income the tax path proceeds to
the analyzer-composed response. -/
theorem handler_guard_messages (p : UserProfile) (q : String) :
    (handle_tax_query p q = Except.ok needIncomeTaxMsg ↔ incomeFalsy p.income = true) ∧
    (incomeFalsy p.income = false →
      handle_tax_query p q = Except.ok (tax_query_response p)) ∧
    (handle_budget_query p q = Except.ok needBudgetMsg ↔
      (incomeFalsy p.income = true ∨ p.expenses = [])) ∧
    (handle_investment_query p q = Except.ok needInvestMsg ↔ incomeFalsy p.income = true) := by
  have htaxresp : tax_query_response p ≠ needIncomeTaxMsg := by
    intro he
    have h1 := tax_query_response_head p
    rw [he, needIncomeTaxMsg_head] at h1
    exact absurd h1 (by decide)
  refine ⟨⟨?_, ?_⟩, ?_, ⟨?_, ?_⟩, ⟨?_, ?_⟩⟩
  · intro he
    by_contra hf
    have hf2 : incomeFalsy p.income = false := by
      cases hb : incomeFalsy p.income
      · rfl
      · exact absurd hb hf
    rw [handle_tax_query, if_neg (by simp [hf2])] at he
    simp only [Except.ok.injEq] at he
    exact htaxresp he
  · intro ht
    rw [handle_tax_query, if_pos ht]
  · intro ht
    rw [handle_tax_query, if_neg (by simp [ht])]
  · intro he
    by_cases hg : (incomeFalsy p.income || p.expenses.isEmpty) = true
    · rcases Bool.or_eq_true_iff.mp hg with h | h
      · exact Or.inl h
      · exact Or.inr (by simpa using h)
    · exfalso
      have hgf : (incomeFalsy p.income || p.expenses.isEmpty) = false := by
        cases hb : (incomeFalsy p.income || p.expenses.isEmpty)
        · rfl
        · exact absurd hb hg
      rw [handle_budget_query, if_neg (by simp [hgf])] at he
      cases hs : generate_budget_summary
          (analyze_budget (p.income.getD 0) p.expenses) p with
      | error e => rw [hs] at he; exact absurd he (by simp)
      | ok bs =>
        rw [hs] at he
        cases hi : generate_spending_insights p.expenses p with
        | error e => rw [hi] at he; exact absurd he (by simp)
        | ok ins =>
          rw [hi] at he
          simp only [Except.ok.injEq] at he
          have hh := generate_budget_summary_head _ _ _ hs
          have hcomp := data_head_append _
            (String.join ((ins.take 3).map (fun insight => ("• ") ++ insight ++ ("\n")))) _
            (data_head_append bs ("\n\nὐD **Spending Insights:**\n") _ hh)
          rw [he, needBudgetMsg_head] at hcomp
          exact absurd hcomp (by decide)
  · intro hr
    have hg : (incomeFalsy p.income || p.expenses.isEmpty) = true := by
      rcases hr with h | h
      · simp [h]
      · simp [h]
    rw [handle_budget_query, if_pos (by simp [hg])]
  · intro he
    by_contra hf
    have hf2 : incomeFalsy p.income = false := by
      cases hb : incomeFalsy p.income
      · rfl
      · exact absurd hb hf
    rw [handle_investment_query, if_neg (by simp [hf2])] at he
    by_cases hav : invest_available_funds p < 100
    · rw [if_pos hav] at he
      simp only [Except.ok.injEq] at he
      have h1 := emergency_fund_msg_head p.user_type
      rw [he, needInvestMsg_head] at h1
      exact absurd h1 (by decide)
    · rw [if_neg hav] at he
      simp only [Except.ok.injEq] at he
      have h1 := invest_query_response_head p (invest_available_funds p)
      rw [he, needInvestMsg_head] at h1
      exact absurd h1 (by decide)
  · intro ht
    rw [handle_investment_query, if_pos ht]

/-- C2 counterexample: a profile whose income is present but equal to 0 —
the tax path returns the need-income guidance even though the income is
not absent, so "guidance exactly when income is absent" fails. -/
theorem handler_guard_zero_income_counterexample :
    (UserProfile.mk ("student") 20 (some 0) [] [] ("moderate")).income = some 0 ∧
    (UserProfile.mk ("student") 20 (some 0) [] [] ("moderate")).income ≠ none ∧
    handle_tax_query (UserProfile.mk ("student") 20 (some 0) [] [] ("moderate"))
        ("How much will I pay in taxes?")
      = Except.ok needIncomeTaxMsg := by
  refine ⟨rfl, by simp, ?_⟩
  rw [handle_tax_query, if_pos ?_]
  show incomeFalsy (some 0) = true
  rw [incomeFalsy]
  norm_num

/-- Witness for C2 at a concrete profile with a truthy income. -/
theorem handler_guard_messages_witness :
    (handle_tax_query (UserProfile.mk ("professional") 30 (some 1000) [(("rent"), 10)] [] ("low"))
          ("hello")
        = Except.ok needIncomeTaxMsg ↔
      incomeFalsy (UserProfile.mk ("professional") 30 (some 1000) [(("rent"), 10)] [] ("low")).income
        = true) ∧
    (incomeFalsy (UserProfile.mk ("professional") 30 (some 1000) [(("rent"), 10)] [] ("low")).income
        = false →
      handle_tax_query (UserProfile.mk ("professional") 30 (some 1000) [(("rent"), 10)] [] ("low"))
          ("hello")
        = Except.ok (tax_query_response
            (UserProfile.mk ("professional") 30 (some 1000) [(("rent"), 10)] [] ("low")))) ∧
    (handle_budget_query (UserProfile.mk ("professional") 30 (some 1000) [(("rent"), 10)] [] ("low"))
          ("hello")
        = Except.ok needBudgetMsg ↔
      (incomeFalsy
          (UserProfile.mk ("professional") 30 (some 1000) [(("rent"), 10)] [] ("low")).income
        = true ∨
        (UserProfile.mk ("professional") 30 (some 1000) [(("rent"), 10)] [] ("low")).expenses
          = [])) ∧
    (handle_investment_query
          (UserProfile.mk ("professional") 30 (some 1000) [(("rent"), 10)] [] ("low")) ("hello")
        = Except.ok needInvestMsg ↔
      incomeFalsy (UserProfile.mk ("professional") 30 (some 1000) [(("rent"), 10)] [] ("low")).income
        = true) :=
  handler_guard_messages (UserProfile.mk ("professional") 30 (some 1000) [(("rent"), 10)] [] ("low"))
    ("hello")

/-! ### Lemmas about the router -/

lemma insertDesc_ne_nil (x : String × ℚ) (l : List (String × ℚ)) : insertDesc x l ≠ [] := by
  cases l with
  | nil => simp [insertDesc]
  | cons y rest =>
    unfold insertDesc
    split_ifs <;> simp

lemma foldl_insertDesc_ne_nil (l : List (String × ℚ)) :
    ∀ acc : List (String × ℚ), acc ≠ [] ∨ l ≠ [] →
      l.foldl (fun a x => insertDesc x a) acc ≠ [] := by
  induction l with
  | nil =>
    intro acc h
    simpa using h.resolve_right (fun hh => hh rfl)
  | cons x xs ih =>
    intro acc _
    simp only [List.foldl_cons]
    exact ih (insertDesc x acc) (Or.inl (insertDesc_ne_nil x acc))

lemma sortDesc_ne_nil (l : List (String × ℚ)) (h : l ≠ []) : sortDesc l ≠ [] :=
  foldl_insertDesc_ne_nil l [] (Or.inr h)

/-- C1: `process_query` always returns a plain string and the untouched
store: an unknown identifier yields the fixed create-profile message, a
handler failure is converted to the fixed apology, and a handler success
is returned as is — no failure ever propagates. -/
theorem process_query_no_propagation (st : Store) (user_id query : String) :
    (storeGet st user_id = none → process_query st user_id query = (createProfileMsg, st)) ∧
    (∀ p, storeGet st user_id = some p →
      ((∃ e, dispatch p query = Except.error e) →
        process_query st user_id query = (apologyMsg, st)) ∧
      (∀ s, dispatch p query = Except.ok s →
        process_query st user_id query = (s, st))) := by
  refine ⟨?_, ?_⟩
  · intro h
    simp [process_query, h]
  · intro p hp
    refine ⟨?_, ?_⟩
    · rintro ⟨e, he⟩
      simp [process_query, hp, he]
    · intro s hs
      simp [process_query, hp, hs]

/-- Witness for C1: a savings query against a profile with no income and
no expenses makes the handler raise `TypeError`, and the router converts
it to the apology. -/
theorem process_query_no_propagation_witness :
    storeGet [(("u"), UserProfile.mk ("student") 20 none [] [] ("moderate"))] ("u")
        = some (UserProfile.mk ("student") 20 none [] [] ("moderate")) ∧
    dispatch (UserProfile.mk ("student") 20 none [] [] ("moderate")) ("How should I save money?")
        = Except.error PyError.typeError ∧
    process_query [(("u"), UserProfile.mk ("student") 20 none [] [] ("moderate"))] ("u")
        ("How should I save money?")
      = (apologyMsg, [(("u"), UserProfile.mk ("student") 20 none [] [] ("moderate"))]) :=
  ⟨rfl, rfl,
   ((process_query_no_propagation
        [(("u"), UserProfile.mk ("student") 20 none [] [] ("moderate"))] ("u")
        ("How should I save money?")).2
      (UserProfile.mk ("student") 20 none [] [] ("moderate")) rfl).1
    ⟨PyError.typeError, rfl⟩⟩

/-- C9: `process_query` never mutates the profile store: the store
returned is the input store, so every profile and every profile field is
unchanged whatever the query, the identifier and the outcome. -/
theorem process_query_preserves_store (st : Store) (user_id query : String) :
    (process_query st user_id query).2 = st ∧
    (∀ uid2, storeGet ((process_query st user_id query).2) uid2 = storeGet st uid2) := by
  have h : (process_query st user_id query).2 = st := by
    cases hs : storeGet st user_id with
    | none => simp [process_query, hs]
    | some p =>
      cases hd : dispatch p query with
      | ok s => simp [process_query, hs, hd]
      | error e => simp [process_query, hs, hd]
  exact ⟨h, fun uid2 => by rw [h]⟩

/-- C10: a budget-intent query (budget keyword present, no tax keyword)
against a stored profile whose income is present and nonzero and whose
expense mapping is non-empty with all amounts 0 never yields a budget
analysis: the spending-insights percentage divides by the zero total, the
`ZeroDivisionError` is caught at the router boundary, and the fixed
apology is returned with the store untouched. -/
theorem budget_zero_total_apology (st : Store) (user_id query : String)
    (p : UserProfile) (inc : ℚ)
    (hp : storeGet st user_id = some p)
    (hinc : p.income = some inc) (hnz : inc ≠ 0)
    (hne : p.expenses ≠ []) (hz : ∀ e ∈ p.expenses, e.2 = 0)
    (htax : kwAny tax_keywords (pyLower query) = false)
    (hbud : kwAny budget_keywords (pyLower query) = true) :
    process_query st user_id query = (apologyMsg, st) := by
  have hfalsy : incomeFalsy p.income = false := by
    rw [hinc, incomeFalsy]
    exact beq_eq_false_iff_ne.mpr hnz
  have hie : p.expenses.isEmpty = false := by
    cases hpe : p.expenses with
    | nil => exact absurd hpe hne
    | cons a l => rfl
  have hguard : (incomeFalsy p.income || p.expenses.isEmpty) = false := by
    rw [hfalsy, hie]
    rfl
  have htot : sumValues p.expenses = 0 := by
    unfold sumValues
    refine List.sum_eq_zero ?_
    intro x hx
    obtain ⟨e, he, rfl⟩ := List.mem_map.mp hx
    exact hz e he
  obtain ⟨x, tl, hsd⟩ : ∃ x tl, sortDesc p.expenses = x :: tl := by
    cases hs2 : sortDesc p.expenses with
    | nil => exact absurd hs2 (sortDesc_ne_nil _ hne)
    | cons x tl => exact ⟨x, tl, rfl⟩
  have hins : generate_spending_insights p.expenses p = Except.error PyError.zeroDivision := by
    obtain ⟨hc, ha⟩ := x
    simp [generate_spending_insights, hsd, htot, pyDiv]
  have hbh : ∃ e, handle_budget_query p query = Except.error e := by
    rw [handle_budget_query, if_neg (by simp [hguard])]
    cases hsum2 : generate_budget_summary (analyze_budget (p.income.getD 0) p.expenses) p with
    | error e => exact ⟨e, by simp [hsum2]⟩
    | ok bs => exact ⟨PyError.zeroDivision, by simp [hsum2, hins]⟩
  have hdisp : dispatch p query = handle_budget_query p query := by
    rw [dispatch, if_neg (by simp [htax]), if_pos hbud]
  obtain ⟨e, he⟩ := hbh
  simp [process_query, hp, hdisp, he]

/-- Witness for C10: an all-zero two-category expense mapping with income
1000 under a budget query. -/
theorem budget_zero_total_apology_witness :
    storeGet
        [(("u"),
          UserProfile.mk ("student") 20 (some 1000)
            [(("rent"), 0), (("misc"), 0)] [] ("moderate"))] ("u")
      = some (UserProfile.mk ("student") 20 (some 1000)
          [(("rent"), 0), (("misc"), 0)] [] ("moderate")) ∧
    (UserProfile.mk ("student") 20 (some 1000)
        [(("rent"), 0), (("misc"), 0)] [] ("moderate")).income = some 1000 ∧
    (1000:ℚ) ≠ 0 ∧
    (UserProfile.mk ("student") 20 (some 1000)
        [(("rent"), 0), (("misc"), 0)] [] ("moderate")).expenses ≠ [] ∧
    (∀ e ∈ (UserProfile.mk ("student") 20 (some 1000)
        [(("rent"), 0), (("misc"), 0)] [] ("moderate")).expenses, e.2 = (0:ℚ)) ∧
    kwAny tax_keywords (pyLower ("Can you analyze my budget?")) = false ∧
    kwAny budget_keywords (pyLower ("Can you analyze my budget?")) = true ∧
    process_query
        [(("u"),
          UserProfile.mk ("student") 20 (some 1000)
            [(("rent"), 0), (("misc"), 0)] [] ("moderate"))] ("u")
        ("Can you analyze my budget?")
      = (apologyMsg,
         [(("u"),
           UserProfile.mk ("student") 20 (some 1000)
             [(("rent"), 0), (("misc"), 0)] [] ("moderate"))]) :=
  ⟨rfl, rfl, by norm_num, by simp, by norm_num, rfl, rfl,
   budget_zero_total_apology _ _ _ _ 1000 rfl rfl (by norm_num) (by simp) (by norm_num)
     rfl rfl⟩

/-- C8 (code evaluated at the failing input): an unknown identifier gets
the fixed no-profile string, but a stored profile whose income is absent
makes `get_user_profile_summary` raise `TypeError` instead of returning a
snapshot — the f-string formats `None` with `:,.2f` because the intended
conditional sits inside the string literal. -/
theorem get_user_profile_summary_eval :
    get_user_profile_summary ([] : Store) ("u") = Except.ok ("No profile found.") ∧
    get_user_profile_summary
        [(("u"), UserProfile.mk ("student") 20 none [] [] ("moderate"))] ("u")
      = Except.error PyError.typeError ∧
    (∃ s, get_user_profile_summary
        [(("u"), UserProfile.mk ("student") 20 (some 15000) [] [] ("moderate"))] ("u")
      = Except.ok s) :=
  ⟨rfl, rfl, ⟨_, rfl⟩⟩
